import Mathlib

/-!
Shallow embedding of `src/functions/common/browser-batch-handler.ts` and proofs
about the claims of the specification.

The source file is an async TypeScript orchestrator.  Its control flow is
deterministic once the outcomes of the effectful operations are fixed, so the
embedding is parametrised by a `ScrapeEnv` oracle fixing, for every browser
session, the outcome of `puppeteer.launch` (a usable handle, `null`, or a
thrown error), for every page the outcome of `browser.newPage()`, and for every
url the outcome of the caller-supplied `scrapingFunction` (a value of type `T`
or a thrown error message).  JavaScript truthiness of `T`-values (relevant in
the aggregation test `pageResult.success && pageResult.data`) is modelled by
the oracle field `dataTruthy`; truthiness of an optional string is modelled by
`strTruthy` (absent or empty string is falsy).

The `try { await processBatchOfBrowsers(...) } catch (batchError)` block of
`BrowserBatchHandler` (source lines 535-584) defends against the batch
coordinator call itself throwing.  That possibility is modelled by a
`faults : Nat → Option String` oracle keyed by the 1-based batch number:
`faults n = some msg` means the coordinator invocation for batch `n` threw
`msg`; `faults n = none` means it returned normally.  The real, non-throwing
coordinator is the instance `faults = noFaults`.

Resource cleanup (the `finally` block of `processSingleBrowser`, source lines
224-258) is modelled by a `SessionTrace` counting pages opened, page-close
calls, browser launches and browser-close calls, mirroring the mock-counter
formulation of property P3 of the specification.
-/

namespace BrowserBatch

/-- Chunking with explicit fuel; structural recursion on the fuel so that the
function reduces definitionally.  One chunk of `sz` elements is taken per step,
mirroring `urlItems.slice(i, i + sz)` with `i += sz` in the source. -/
def chunkListFuel {α : Type} (sz : Nat) (fuel : Nat) (l : List α) : List (List α) :=
  match l with
  | [] => []
  | a :: l' =>
    match fuel with
    | 0 => []
    | fuel' + 1 => (a :: l').take sz :: chunkListFuel sz fuel' ((a :: l').drop sz)

/-- Contiguous chunks of size `sz`, modelling the source loops
`for (let i = 0; i < items.length; i += sz) push(items.slice(i, i + sz))`
(source lines 305-307 and 513-516).  A fuel of `l.length` suffices because
every step with `0 < sz` consumes at least one element.  For `sz = 0` the
JavaScript loop would never terminate; the claims only concern positive chunk
sizes, and this embedding returns `[]` in that degenerate case. -/
def chunkList {α : Type} (sz : Nat) (l : List α) : List (List α) :=
  match l with
  | [] => []
  | _ => if sz = 0 then [] else chunkListFuel sz l.length l

/-- Outcome of `puppeteer.launch(browserOptions)` for one session: a usable
browser handle, a `null` handle (the defensive `if (!browser)` branch, source
lines 110-122), or a thrown error (caught at source lines 205-222). -/
inductive LaunchOutcome where
  | ok
  | nullBrowser
  | throwErr (msg : String)
deriving DecidableEq

/-- Result of one page's processing, mirroring `EachPageResult<T>` of the
source: `success`, optional `data`, optional `error`. -/
structure EachPageResult (T : Type) where
  success : Bool
  data : Option T
  error : Option String
deriving DecidableEq

/-- Result of one browser session, mirroring `SingleBrowserResult<T>` of the
source: page results, optional session-level error, and the browser index. -/
structure SingleBrowserResult (T : Type) where
  results : List (EachPageResult T)
  error : Option String
  browserIndex : Nat
deriving DecidableEq

/-- Instrumentation for one page promise: whether a page handle was opened
(pushed onto `pages`), whether the work function was invoked, and whether that
invocation returned successfully. -/
structure PageTrace where
  opened : Bool
  workCalled : Bool
  workSucceeded : Bool
deriving DecidableEq

/-- Instrumentation for one browser session, mirroring the call-counter mocks
of specification property P3: pages opened, `page.close()` calls made by the
cleanup block, whether a usable browser was obtained, `browser.close()` calls,
and work-function invocation counts. -/
structure SessionTrace where
  pagesOpened : Nat
  pageCloseCalls : Nat
  browserLaunched : Bool
  browserCloseCalls : Nat
  workFnCalls : Nat
  workFnSuccesses : Nat
deriving DecidableEq

/-- Oracle fixing every effectful outcome of one orchestrator run.
`maxBrowserSessions` and `maxPagesPerBrowser` model the configuration
constants `MAX_BROWSER_SESSIONS` and `MAX_PAGES_PER_BROWSER`; `launch` is
keyed by browser index and batch number; `newPage` by browser index, batch
number and page index; `workFn` by the url; `dataTruthy` models JavaScript
truthiness of scraped `T`-values. -/
structure ScrapeEnv (T : Type) where
  maxBrowserSessions : Nat
  maxPagesPerBrowser : Nat
  launch : Nat → Nat → LaunchOutcome
  newPage : Nat → Nat → Nat → Except String Unit
  workFn : String → Except String T
  dataTruthy : T → Bool

/-- Total concurrent capacity, `TOTAL_CONCURRENT_URLS = MAX_BROWSER_SESSIONS *
MAX_PAGES_PER_BROWSER` (source line 34). -/
def totalConcurrentUrls {T : Type} (env : ScrapeEnv T) : Nat :=
  env.maxBrowserSessions * env.maxPagesPerBrowser

/-- Error message built by the per-page catch block (source line 181). -/
def pageErrorMessage (url : String) (browserIndex pageIndex : Nat) (msg : String) : String :=
  "Page had error for this url " ++ url ++ " at Browser " ++ toString browserIndex ++
    " for page " ++ toString (pageIndex + 1) ++ " : " ++ msg

/-- Message of the `null`-browser defensive branch (source line 119). -/
def launchNullMessage : String := "Browser launch failed - browser is null"

/-- One entry of `pagePromises` (source lines 125-183): open a page (appending
it to `pages` on success), invoke the scraping function, and convert any
thrown error into a `success: false` result carrying `pageErrorMessage`.
Returns the page result together with its `PageTrace`. -/
def processPage {T : Type} (env : ScrapeEnv T) (browserIndex batchNumber : Nat)
    (url : String) (pageIndex : Nat) : EachPageResult T × PageTrace :=
  match env.newPage browserIndex batchNumber pageIndex with
  | .error m =>
      (⟨false, none, some (pageErrorMessage url browserIndex pageIndex m)⟩,
       ⟨false, false, false⟩)
  | .ok _ =>
      match env.workFn url with
      | .ok d => (⟨true, some d, none⟩, ⟨true, true, true⟩)
      | .error m =>
          (⟨false, none, some (pageErrorMessage url browserIndex pageIndex m)⟩,
           ⟨true, true, false⟩)

/-- One browser session, `processSingleBrowser` (source lines 88-259).  On a
thrown launch the outer catch returns the error message with no results; on a
`null` handle the defensive branch returns `launchNullMessage`; otherwise each
url is processed by its own page promise.  The `SessionTrace` mirrors the
`finally` block (source lines 224-258): every page pushed onto `pages` is
still open there, so it receives exactly one `close` call, and the browser
receives one `close` call exactly when a usable handle was obtained. -/
def processSingleBrowser {T : Type} (env : ScrapeEnv T) (urlItems : List String)
    (browserIndex batchNumber : Nat) : SingleBrowserResult T × SessionTrace :=
  match env.launch browserIndex batchNumber with
  | .throwErr msg =>
      (⟨[], some msg, browserIndex⟩, ⟨0, 0, false, 0, 0, 0⟩)
  | .nullBrowser =>
      (⟨[], some launchNullMessage, browserIndex⟩, ⟨0, 0, false, 0, 0, 0⟩)
  | .ok =>
      let pageRuns := urlItems.enum.map fun p =>
        processPage env browserIndex batchNumber p.2 p.1
      let opened := pageRuns.countP fun pr => pr.2.opened
      (⟨pageRuns.map Prod.fst, none, browserIndex⟩,
       ⟨opened, opened, true, 1,
        pageRuns.countP fun pr => pr.2.workCalled,
        pageRuns.countP fun pr => pr.2.workSucceeded⟩)

/-- One batch of browsers, `processBatchOfBrowsers` (source lines 286-356):
the batch's urls are split into per-browser groups of `MAX_PAGES_PER_BROWSER`,
one session runs per group with browser index `groupIndex + 1`, and the
session results are collected.  (`browserResults.flat()` on a list of
non-array objects is the identity.) -/
def processBatchOfBrowsers {T : Type} (env : ScrapeEnv T) (urlItems : List String)
    (batchNumber : Nat) : List (SingleBrowserResult T) :=
  (chunkList env.maxPagesPerBrowser urlItems).enum.map fun p =>
    (processSingleBrowser env p.2 (p.1 + 1) batchNumber).fst

/-- Mutable aggregation state of the orchestrator loop (source lines 528-531):
`aggregatedResults`, `aggregatedErrors`, `successCount`, `errorCount`. -/
structure AggState (T : Type) where
  aggregatedResults : List T
  aggregatedErrors : List String
  successCount : Nat
  errorCount : Nat
deriving DecidableEq

/-- Initial aggregation state: empty lists, zero counters. -/
def initAgg {T : Type} : AggState T := ⟨[], [], 0, 0⟩

/-- JavaScript truthiness of an optional string: absent (`undefined`) and the
empty string are falsy. -/
def strTruthy : Option String → Bool
  | none => false
  | some s => decide (s ≠ "")

/-- The `else if (pageResult.error)` branch of the aggregation loop (source
lines 549-552): a truthy page error is appended to `aggregatedErrors` and
`errorCount` is incremented; otherwise nothing happens. -/
def aggregatePageError {T : Type} (s : AggState T) (e : Option String) : AggState T :=
  match e with
  | some m =>
      if m = "" then s
      else { s with aggregatedErrors := s.aggregatedErrors ++ [m],
                    errorCount := s.errorCount + 1 }
  | none => s

/-- The per-page-result body of the aggregation loop (source lines 545-553):
`if (pageResult.success && pageResult.data)` appends the data and increments
`successCount`, `else if (pageResult.error)` records the error. -/
def aggregatePageResult {T : Type} (dt : T → Bool) (s : AggState T)
    (pr : EachPageResult T) : AggState T :=
  match pr.data, pr.success with
  | some d, true =>
      if dt d then
        { s with aggregatedResults := s.aggregatedResults ++ [d],
                 successCount := s.successCount + 1 }
      else aggregatePageError s pr.error
  | _, _ => aggregatePageError s pr.error

/-- The `if (browserResult.error)` step of the aggregation loop (source lines
540-542): a truthy session-level error is appended to `aggregatedErrors`
without touching either counter. -/
def aggregateSessionError {T : Type} (s : AggState T) (e : Option String) : AggState T :=
  match e with
  | some m =>
      if m = "" then s
      else { s with aggregatedErrors := s.aggregatedErrors ++ [m] }
  | none => s

/-- Aggregation of one `SingleBrowserResult` (source lines 538-554): the
session-level error first, then every page result in order. -/
def aggregateBrowserResult {T : Type} (dt : T → Bool) (s : AggState T)
    (br : SingleBrowserResult T) : AggState T :=
  br.results.foldl (aggregatePageResult dt) (aggregateSessionError s br.error)

/-- Synthetic message of the per-batch catch block (source line 569). -/
def batchFailureMessage (batchNumber : Nat) (msg : String) : String :=
  "Batch " ++ toString batchNumber ++ " processing failed: " ++ msg

/-- One iteration of the orchestrator's batch loop (source lines 534-585),
acting on the pair `(batchIndex, batch)`.  If the coordinator invocation for
batch number `batchIndex + 1` throws (`faults` yields a message), the catch
block appends one `batchFailureMessage` and adds the whole batch length to
`errorCount`; otherwise every browser result of the batch is aggregated. -/
def aggregateBatch {T : Type} (env : ScrapeEnv T) (faults : Nat → Option String)
    (s : AggState T) (p : Nat × List String) : AggState T :=
  match faults (p.1 + 1) with
  | some msg =>
      { s with aggregatedErrors := s.aggregatedErrors ++ [batchFailureMessage (p.1 + 1) msg],
               errorCount := s.errorCount + p.2.length }
  | none =>
      (processBatchOfBrowsers env p.2 (p.1 + 1)).foldl (aggregateBrowserResult env.dataTruthy) s

/-- Return type of the orchestrator, mirroring `TBrowserBatchHandlerReturn<T>`
of the source.  Durations are not modelled; `duration` is fixed to `0`. -/
structure TBrowserBatchHandlerReturn (T : Type) where
  success : Bool
  results : List T
  errors : List String
  successCount : Nat
  errorCount : Nat
  totalUrls : Nat
  batches : Nat
  duration : Nat
deriving DecidableEq

/-- The orchestrator `BrowserBatchHandler` (source lines 484-649): split the
urls into super-batches of `TOTAL_CONCURRENT_URLS`, run the batch loop
sequentially, and assemble the report, whose `success` flag is
`errorCount < urlItems.length` (source line 615).  Totality of this function
over every oracle models the never-throw contract: every combination of
operational failures still yields a report. -/
def BrowserBatchHandler {T : Type} (env : ScrapeEnv T) (faults : Nat → Option String)
    (urlItems : List String) : TBrowserBatchHandlerReturn T :=
  let batches := chunkList (totalConcurrentUrls env) urlItems
  let final := batches.enum.foldl (aggregateBatch env faults) initAgg
  { success := decide (final.errorCount < urlItems.length),
    results := final.aggregatedResults,
    errors := final.aggregatedErrors,
    successCount := final.successCount,
    errorCount := final.errorCount,
    totalUrls := urlItems.length,
    batches := batches.length,
    duration := 0 }

/-- Fault oracle of the real, never-throwing batch coordinator. -/
def noFaults : Nat → Option String := fun _ => none

/-- Number of successful work-function invocations across one batch, summed
from the session traces. -/
def batchWorkFnSuccesses {T : Type} (env : ScrapeEnv T) (urlItems : List String)
    (batchNumber : Nat) : Nat :=
  ((chunkList env.maxPagesPerBrowser urlItems).enum.map fun p =>
    ((processSingleBrowser env p.2 (p.1 + 1) batchNumber).snd).workFnSuccesses).sum

/-- Number of successful work-function invocations across a whole (unfaulted)
orchestrator run, summed over all super-batches. -/
def totalWorkFnSuccesses {T : Type} (env : ScrapeEnv T) (urlItems : List String) : Nat :=
  ((chunkList (totalConcurrentUrls env) urlItems).enum.map fun p =>
    batchWorkFnSuccesses env p.2 (p.1 + 1)).sum

/-! Lemmas about `chunkList`. -/

theorem chunkListFuel_nil {α : Type} (sz fuel : Nat) :
    chunkListFuel sz fuel ([] : List α) = [] := by
  cases fuel <;> rfl

theorem chunkListFuel_congr {α : Type} (sz : Nat) (hsz : 0 < sz) :
    ∀ (f₁ : Nat) (f₂ : Nat) (l : List α), l.length ≤ f₁ → l.length ≤ f₂ →
      chunkListFuel sz f₁ l = chunkListFuel sz f₂ l := by
  intro f₁
  induction f₁ with
  | zero =>
      intro f₂ l h₁ _
      match l with
      | [] => rw [chunkListFuel_nil, chunkListFuel_nil]
      | a :: l' => simp at h₁
  | succ g₁ ih =>
      intro f₂ l h₁ h₂
      match l with
      | [] => rw [chunkListFuel_nil, chunkListFuel_nil]
      | a :: l' =>
        match f₂ with
        | 0 => simp at h₂
        | g₂ + 1 =>
          simp only [chunkListFuel]
          congr 1
          apply ih
          · calc ((a :: l').drop sz).length = (a :: l').length - sz := by
                  simp [List.length_drop]
              _ ≤ (a :: l').length - 1 := Nat.sub_le_sub_left hsz _
              _ = l'.length := by simp
              _ ≤ g₁ := Nat.le_of_succ_le_succ (by simpa using h₁)
          · calc ((a :: l').drop sz).length = (a :: l').length - sz := by
                  simp [List.length_drop]
              _ ≤ (a :: l').length - 1 := Nat.sub_le_sub_left hsz _
              _ = l'.length := by simp
              _ ≤ g₂ := Nat.le_of_succ_le_succ (by simpa using h₂)

theorem chunkList_nil {α : Type} (sz : Nat) : chunkList sz ([] : List α) = [] := rfl

theorem chunkList_cons {α : Type} (sz : Nat) (hsz : 0 < sz) (l : List α) (hl : l ≠ []) :
    chunkList sz l = l.take sz :: chunkList sz (l.drop sz) := by
  match l with
  | [] => exact absurd rfl hl
  | a :: l' =>
    have hsz' : ¬ sz = 0 := Nat.pos_iff_ne_zero.mp hsz
    show (if sz = 0 then [] else chunkListFuel sz (a :: l').length (a :: l')) = _
    rw [if_neg hsz']
    show (a :: l').take sz :: chunkListFuel sz l'.length ((a :: l').drop sz) = _
    congr 1
    match hd : (a :: l').drop sz with
    | [] => rw [chunkListFuel_nil]; rfl
    | b :: d' =>
      show chunkListFuel sz l'.length (b :: d') =
        if sz = 0 then [] else chunkListFuel sz (b :: d').length (b :: d')
      rw [if_neg hsz']
      apply chunkListFuel_congr sz hsz
      · have : ((a :: l').drop sz).length ≤ l'.length := by
          simp only [List.length_drop, List.length_cons]
          omega
        rw [hd] at this
        exact this
      · exact Nat.le_refl _

theorem chunkList_flatten {α : Type} (sz : Nat) (hsz : 0 < sz) (l : List α) :
    (chunkList sz l).flatten = l := by
  match hl : l with
  | [] => rfl
  | a :: l' =>
    rw [chunkList_cons sz hsz _ (by simp)]
    show (a :: l').take sz ++ (chunkList sz ((a :: l').drop sz)).flatten = a :: l'
    rw [chunkList_flatten sz hsz ((a :: l').drop sz)]
    exact List.take_append_drop sz (a :: l')
termination_by l.length
decreasing_by
  simp only [List.length_drop, List.length_cons]
  omega

theorem chunkList_sum_eq {α : Type} (sz : Nat) (hsz : 0 < sz) (l : List α) :
    ((chunkList sz l).map List.length).sum = l.length := by
  have := congrArg List.length (chunkList_flatten sz hsz l)
  simpa [List.length_flatten] using this

theorem chunkList_sum_le {α : Type} (sz : Nat) (l : List α) :
    ((chunkList sz l).map List.length).sum ≤ l.length := by
  match sz with
  | 0 =>
      match l with
      | [] => simp [chunkList]
      | a :: l' => simp [chunkList]
  | sz' + 1 =>
      rw [chunkList_sum_eq (sz' + 1) (Nat.succ_pos sz') l]

theorem chunkList_mem {α : Type} (sz : Nat) (hsz : 0 < sz) (l : List α) :
    ∀ c ∈ chunkList sz l, c ≠ [] ∧ c.length ≤ sz := by
  match hl : l with
  | [] => intro c hc; simp [chunkList] at hc
  | a :: l' =>
    rw [chunkList_cons sz hsz _ (by simp)]
    intro c hc
    rcases List.mem_cons.mp hc with h | h
    · subst h
      constructor
      · match sz with
        | sz' + 1 => simp
      · simp
    · exact chunkList_mem sz hsz ((a :: l').drop sz) c h
termination_by l.length
decreasing_by
  simp only [List.length_drop, List.length_cons]
  omega

/-! Tally predicates: which page results the aggregation loop counts as a
success (`pageResult.success && pageResult.data` truthy) and which as an
error (`else if (pageResult.error)` truthy). -/

/-- The aggregation loop tallies this page result as a success. -/
def tallyS {T : Type} (dt : T → Bool) (pr : EachPageResult T) : Bool :=
  match pr.data, pr.success with
  | some d, true => dt d
  | _, _ => false

/-- The aggregation loop tallies this page result as an error. -/
def tallyE {T : Type} (dt : T → Bool) (pr : EachPageResult T) : Bool :=
  !tallyS dt pr && strTruthy pr.error

theorem pageErrorMessage_ne_empty (url : String) (browserIndex pageIndex : Nat)
    (msg : String) : pageErrorMessage url browserIndex pageIndex msg ≠ "" := by
  intro h
  have h2 := congrArg String.length h
  have h3 : ("Page had error for this url ").length = 28 := by decide
  simp only [pageErrorMessage, String.length_append, h3] at h2
  have h4 : ("" : String).length = 0 := by decide
  rw [h4] at h2
  omega

theorem launchNullMessage_ne_empty : launchNullMessage ≠ "" := by decide

/-! Counting lemmas for the aggregation functions. -/

theorem aggregatePageError_successCount {T : Type} (s : AggState T) (e : Option String) :
    (aggregatePageError s e).successCount = s.successCount := by
  cases e with
  | none => rfl
  | some m => by_cases hm : m = "" <;> simp [aggregatePageError, hm]

theorem aggregatePageError_errorCount {T : Type} (s : AggState T) (e : Option String) :
    (aggregatePageError s e).errorCount = s.errorCount + (strTruthy e).toNat := by
  cases e with
  | none => rfl
  | some m => by_cases hm : m = "" <;> simp [aggregatePageError, strTruthy, hm]

theorem aggregatePageError_results {T : Type} (s : AggState T) (e : Option String) :
    (aggregatePageError s e).aggregatedResults = s.aggregatedResults := by
  cases e with
  | none => rfl
  | some m => by_cases hm : m = "" <;> simp [aggregatePageError, hm]

theorem aggregatePageResult_successCount {T : Type} (dt : T → Bool) (s : AggState T)
    (pr : EachPageResult T) :
    (aggregatePageResult dt s pr).successCount = s.successCount + (tallyS dt pr).toNat := by
  rcases pr with ⟨succ, data, err⟩
  cases data with
  | none =>
      cases succ <;>
        simp [aggregatePageResult, tallyS, aggregatePageError_successCount]
  | some d =>
      cases succ with
      | false => simp [aggregatePageResult, tallyS, aggregatePageError_successCount]
      | true =>
          by_cases hd : dt d <;>
            simp [aggregatePageResult, tallyS, hd, aggregatePageError_successCount]

theorem aggregatePageResult_errorCount {T : Type} (dt : T → Bool) (s : AggState T)
    (pr : EachPageResult T) :
    (aggregatePageResult dt s pr).errorCount = s.errorCount + (tallyE dt pr).toNat := by
  rcases pr with ⟨succ, data, err⟩
  cases data with
  | none =>
      cases succ <;>
        simp [aggregatePageResult, tallyE, tallyS, aggregatePageError_errorCount]
  | some d =>
      cases succ with
      | false => simp [aggregatePageResult, tallyE, tallyS, aggregatePageError_errorCount]
      | true =>
          by_cases hd : dt d <;>
            simp [aggregatePageResult, tallyE, tallyS, hd, aggregatePageError_errorCount]

theorem aggregatePageResult_results_length {T : Type} (dt : T → Bool) (s : AggState T)
    (pr : EachPageResult T) :
    (aggregatePageResult dt s pr).aggregatedResults.length
      = s.aggregatedResults.length + (tallyS dt pr).toNat := by
  rcases pr with ⟨succ, data, err⟩
  cases data with
  | none =>
      cases succ <;>
        simp [aggregatePageResult, tallyS, aggregatePageError_results]
  | some d =>
      cases succ with
      | false => simp [aggregatePageResult, tallyS, aggregatePageError_results]
      | true =>
          by_cases hd : dt d <;>
            simp [aggregatePageResult, tallyS, hd, aggregatePageError_results]

theorem pageFold_successCount {T : Type} (dt : T → Bool) (prs : List (EachPageResult T)) :
    ∀ s : AggState T, (prs.foldl (aggregatePageResult dt) s).successCount
      = s.successCount + prs.countP (tallyS dt) := by
  induction prs with
  | nil => intro s; simp
  | cons pr prs ih =>
      intro s
      rw [List.foldl_cons, ih, aggregatePageResult_successCount, List.countP_cons]
      cases h : tallyS dt pr 
      · simp [h]
      · simp [h]; omega

theorem pageFold_errorCount {T : Type} (dt : T → Bool) (prs : List (EachPageResult T)) :
    ∀ s : AggState T, (prs.foldl (aggregatePageResult dt) s).errorCount
      = s.errorCount + prs.countP (tallyE dt) := by
  induction prs with
  | nil => intro s; simp
  | cons pr prs ih =>
      intro s
      rw [List.foldl_cons, ih, aggregatePageResult_errorCount, List.countP_cons]
      cases h : tallyE dt pr 
      · simp [h]
      · simp [h]; omega

theorem pageFold_results_length {T : Type} (dt : T → Bool) (prs : List (EachPageResult T)) :
    ∀ s : AggState T, (prs.foldl (aggregatePageResult dt) s).aggregatedResults.length
      = s.aggregatedResults.length + prs.countP (tallyS dt) := by
  induction prs with
  | nil => intro s; simp
  | cons pr prs ih =>
      intro s
      rw [List.foldl_cons, ih, aggregatePageResult_results_length, List.countP_cons]
      cases h : tallyS dt pr 
      · simp [h]
      · simp [h]; omega

theorem aggregateSessionError_successCount {T : Type} (s : AggState T) (e : Option String) :
    (aggregateSessionError s e).successCount = s.successCount := by
  cases e with
  | none => rfl
  | some m => by_cases hm : m = "" <;> simp [aggregateSessionError, hm]

theorem aggregateSessionError_errorCount {T : Type} (s : AggState T) (e : Option String) :
    (aggregateSessionError s e).errorCount = s.errorCount := by
  cases e with
  | none => rfl
  | some m => by_cases hm : m = "" <;> simp [aggregateSessionError, hm]

theorem aggregateSessionError_results {T : Type} (s : AggState T) (e : Option String) :
    (aggregateSessionError s e).aggregatedResults = s.aggregatedResults := by
  cases e with
  | none => rfl
  | some m => by_cases hm : m = "" <;> simp [aggregateSessionError, hm]

theorem aggregateBrowserResult_successCount {T : Type} (dt : T → Bool) (s : AggState T)
    (br : SingleBrowserResult T) :
    (aggregateBrowserResult dt s br).successCount
      = s.successCount + br.results.countP (tallyS dt) := by
  rw [aggregateBrowserResult, pageFold_successCount, aggregateSessionError_successCount]

theorem aggregateBrowserResult_errorCount {T : Type} (dt : T → Bool) (s : AggState T)
    (br : SingleBrowserResult T) :
    (aggregateBrowserResult dt s br).errorCount
      = s.errorCount + br.results.countP (tallyE dt) := by
  rw [aggregateBrowserResult, pageFold_errorCount, aggregateSessionError_errorCount]

theorem aggregateBrowserResult_results_length {T : Type} (dt : T → Bool) (s : AggState T)
    (br : SingleBrowserResult T) :
    (aggregateBrowserResult dt s br).aggregatedResults.length
      = s.aggregatedResults.length + br.results.countP (tallyS dt) := by
  rw [aggregateBrowserResult, pageFold_results_length, aggregateSessionError_results]

/-! Generic counting helpers. -/

theorem sum_map_add {α : Type} (f g : α → Nat) (l : List α) :
    (l.map f).sum + (l.map g).sum = (l.map fun x => f x + g x).sum := by
  induction l with
  | nil => simp
  | cons a l ih => simp only [List.map_cons, List.sum_cons]; omega

theorem sum_map_enumFrom_le {α : Type} (g : Nat × α → Nat) (m : α → Nat)
    (hg : ∀ i a, g (i, a) ≤ m a) :
    ∀ (n : Nat) (l : List α), ((List.enumFrom n l).map g).sum ≤ (l.map m).sum := by
  intro n l
  induction l generalizing n with
  | nil => simp
  | cons a l ih =>
      simp only [List.enumFrom_cons, List.map_cons, List.sum_cons]
      exact Nat.add_le_add (hg n a) (ih (n + 1))

theorem sum_map_enumFrom_eq {α : Type} (g : Nat × α → Nat) (m : α → Nat)
    (hg : ∀ i a, g (i, a) = m a) :
    ∀ (n : Nat) (l : List α), ((List.enumFrom n l).map g).sum = (l.map m).sum := by
  intro n l
  induction l generalizing n with
  | nil => simp
  | cons a l ih =>
      simp only [List.enumFrom_cons, List.map_cons, List.sum_cons]
      rw [hg n a, ih (n + 1)]

theorem countP_add_countP_le_length {α : Type} (p q : α → Bool) (l : List α)
    (hpq : ∀ a ∈ l, p a = true → q a = false) :
    l.countP p + l.countP q ≤ l.length := by
  induction l with
  | nil => simp
  | cons a l ih =>
      rw [List.countP_cons, List.countP_cons, List.length_cons]
      have ha := hpq a (List.mem_cons_self a l)
      have hl : ∀ b ∈ l, p b = true → q b = false := fun b hb => hpq b (List.mem_cons_of_mem a hb)
      have ihl := ih hl
      by_cases h1 : p a = true
      · have h2 := ha h1
        simp [h1, h2]
        omega
      · simp only [Bool.not_eq_true] at h1
        by_cases h2 : q a = true
        · simp [h1, h2]
          omega
        · simp only [Bool.not_eq_true] at h2
          simp [h1, h2]
          omega

theorem countP_add_countP_of_total {α : Type} (p q : α → Bool) (l : List α)
    (hpq : ∀ a ∈ l, p a = true → q a = false)
    (ht : ∀ a ∈ l, p a = true ∨ q a = true) :
    l.countP p + l.countP q = l.length := by
  induction l with
  | nil => simp
  | cons a l ih =>
      rw [List.countP_cons, List.countP_cons, List.length_cons]
      have ha := hpq a (List.mem_cons_self a l)
      have hta := ht a (List.mem_cons_self a l)
      have ihl := ih (fun b hb => hpq b (List.mem_cons_of_mem a hb))
        (fun b hb => ht b (List.mem_cons_of_mem a hb))
      by_cases h1 : p a = true
      · have h2 := ha h1
        simp [h1, h2]
        omega
      · have h2 : q a = true := by
          rcases hta with h | h
          · exact absurd h h1
          · exact h
        simp only [Bool.not_eq_true] at h1
        simp [h1, h2]
        omega

/-! Counting across browser results and batches. -/

/-- Number of page results of a list of browser results that the aggregation
loop tallies as successes. -/
def brsCountS {T : Type} (dt : T → Bool) (brs : List (SingleBrowserResult T)) : Nat :=
  (brs.map fun br => br.results.countP (tallyS dt)).sum

/-- Number of page results of a list of browser results that the aggregation
loop tallies as errors. -/
def brsCountE {T : Type} (dt : T → Bool) (brs : List (SingleBrowserResult T)) : Nat :=
  (brs.map fun br => br.results.countP (tallyE dt)).sum

theorem brsFold_successCount {T : Type} (dt : T → Bool) (brs : List (SingleBrowserResult T)) :
    ∀ s : AggState T, (brs.foldl (aggregateBrowserResult dt) s).successCount
      = s.successCount + brsCountS dt brs := by
  induction brs with
  | nil => intro s; simp [brsCountS]
  | cons br brs ih =>
      intro s
      rw [List.foldl_cons, ih, aggregateBrowserResult_successCount]
      simp only [brsCountS, List.map_cons, List.sum_cons]
      omega

theorem brsFold_errorCount {T : Type} (dt : T → Bool) (brs : List (SingleBrowserResult T)) :
    ∀ s : AggState T, (brs.foldl (aggregateBrowserResult dt) s).errorCount
      = s.errorCount + brsCountE dt brs := by
  induction brs with
  | nil => intro s; simp [brsCountE]
  | cons br brs ih =>
      intro s
      rw [List.foldl_cons, ih, aggregateBrowserResult_errorCount]
      simp only [brsCountE, List.map_cons, List.sum_cons]
      omega

theorem brsFold_results_length {T : Type} (dt : T → Bool) (brs : List (SingleBrowserResult T)) :
    ∀ s : AggState T, (brs.foldl (aggregateBrowserResult dt) s).aggregatedResults.length
      = s.aggregatedResults.length + brsCountS dt brs := by
  induction brs with
  | nil => intro s; simp [brsCountS]
  | cons br brs ih =>
      intro s
      rw [List.foldl_cons, ih, aggregateBrowserResult_results_length]
      simp only [brsCountS, List.map_cons, List.sum_cons]
      omega

/-- Successes tallied for one entry of the batch loop. -/
def batchCountS {T : Type} (env : ScrapeEnv T) (faults : Nat → Option String)
    (p : Nat × List String) : Nat :=
  match faults (p.1 + 1) with
  | some _ => 0
  | none => brsCountS env.dataTruthy (processBatchOfBrowsers env p.2 (p.1 + 1))

/-- Errors tallied for one entry of the batch loop: a faulted batch counts its
whole length, a normal batch counts its tallied page errors. -/
def batchCountE {T : Type} (env : ScrapeEnv T) (faults : Nat → Option String)
    (p : Nat × List String) : Nat :=
  match faults (p.1 + 1) with
  | some _ => p.2.length
  | none => brsCountE env.dataTruthy (processBatchOfBrowsers env p.2 (p.1 + 1))

theorem aggregateBatch_successCount {T : Type} (env : ScrapeEnv T)
    (faults : Nat → Option String) (s : AggState T) (p : Nat × List String) :
    (aggregateBatch env faults s p).successCount = s.successCount + batchCountS env faults p := by
  cases hf : faults (p.1 + 1) with
  | none => simp [aggregateBatch, batchCountS, hf, brsFold_successCount]
  | some msg => simp [aggregateBatch, batchCountS, hf]

theorem aggregateBatch_errorCount {T : Type} (env : ScrapeEnv T)
    (faults : Nat → Option String) (s : AggState T) (p : Nat × List String) :
    (aggregateBatch env faults s p).errorCount = s.errorCount + batchCountE env faults p := by
  cases hf : faults (p.1 + 1) with
  | none => simp [aggregateBatch, batchCountE, hf, brsFold_errorCount]
  | some msg => simp [aggregateBatch, batchCountE, hf]

theorem aggregateBatch_results_length {T : Type} (env : ScrapeEnv T)
    (faults : Nat → Option String) (s : AggState T) (p : Nat × List String) :
    (aggregateBatch env faults s p).aggregatedResults.length
      = s.aggregatedResults.length + batchCountS env faults p := by
  cases hf : faults (p.1 + 1) with
  | none => simp [aggregateBatch, batchCountS, hf, brsFold_results_length]
  | some msg => simp [aggregateBatch, batchCountS, hf]

theorem batchFold_successCount {T : Type} (env : ScrapeEnv T)
    (faults : Nat → Option String) (ps : List (Nat × List String)) :
    ∀ s : AggState T, (ps.foldl (aggregateBatch env faults) s).successCount
      = s.successCount + (ps.map (batchCountS env faults)).sum := by
  induction ps with
  | nil => intro s; simp
  | cons p ps ih =>
      intro s
      rw [List.foldl_cons, ih, aggregateBatch_successCount]
      simp only [List.map_cons, List.sum_cons]
      omega

theorem batchFold_errorCount {T : Type} (env : ScrapeEnv T)
    (faults : Nat → Option String) (ps : List (Nat × List String)) :
    ∀ s : AggState T, (ps.foldl (aggregateBatch env faults) s).errorCount
      = s.errorCount + (ps.map (batchCountE env faults)).sum := by
  induction ps with
  | nil => intro s; simp
  | cons p ps ih =>
      intro s
      rw [List.foldl_cons, ih, aggregateBatch_errorCount]
      simp only [List.map_cons, List.sum_cons]
      omega

theorem batchFold_results_length {T : Type} (env : ScrapeEnv T)
    (faults : Nat → Option String) (ps : List (Nat × List String)) :
    ∀ s : AggState T, (ps.foldl (aggregateBatch env faults) s).aggregatedResults.length
      = s.aggregatedResults.length + (ps.map (batchCountS env faults)).sum := by
  induction ps with
  | nil => intro s; simp
  | cons p ps ih =>
      intro s
      rw [List.foldl_cons, ih, aggregateBatch_results_length]
      simp only [List.map_cons, List.sum_cons]
      omega

theorem report_successCount {T : Type} (env : ScrapeEnv T)
    (faults : Nat → Option String) (urlItems : List String) :
    (BrowserBatchHandler env faults urlItems).successCount
      = ((chunkList (totalConcurrentUrls env) urlItems).enum.map (batchCountS env faults)).sum := by
  show ((chunkList (totalConcurrentUrls env) urlItems).enum.foldl
      (aggregateBatch env faults) initAgg).successCount = _
  rw [batchFold_successCount]
  simp [initAgg]

theorem report_errorCount {T : Type} (env : ScrapeEnv T)
    (faults : Nat → Option String) (urlItems : List String) :
    (BrowserBatchHandler env faults urlItems).errorCount
      = ((chunkList (totalConcurrentUrls env) urlItems).enum.map (batchCountE env faults)).sum := by
  show ((chunkList (totalConcurrentUrls env) urlItems).enum.foldl
      (aggregateBatch env faults) initAgg).errorCount = _
  rw [batchFold_errorCount]
  simp [initAgg]

theorem report_results_length {T : Type} (env : ScrapeEnv T)
    (faults : Nat → Option String) (urlItems : List String) :
    (BrowserBatchHandler env faults urlItems).results.length
      = ((chunkList (totalConcurrentUrls env) urlItems).enum.map (batchCountS env faults)).sum := by
  show ((chunkList (totalConcurrentUrls env) urlItems).enum.foldl
      (aggregateBatch env faults) initAgg).aggregatedResults.length = _
  rw [batchFold_results_length]
  simp [initAgg]

/-! Structural lemmas about browser sessions. -/

theorem processSingleBrowser_ok_results {T : Type} (env : ScrapeEnv T) (urls : List String)
    (b n : Nat) (h : env.launch b n = .ok) :
    (processSingleBrowser env urls b n).fst.results
      = urls.enum.map fun p => (processPage env b n p.2 p.1).fst := by
  simp [processSingleBrowser, h, List.map_map, Function.comp]

theorem processSingleBrowser_ok_error {T : Type} (env : ScrapeEnv T) (urls : List String)
    (b n : Nat) (h : env.launch b n = .ok) :
    (processSingleBrowser env urls b n).fst.error = none := by
  simp [processSingleBrowser, h]

theorem processSingleBrowser_results_length_le {T : Type} (env : ScrapeEnv T)
    (urls : List String) (b n : Nat) :
    (processSingleBrowser env urls b n).fst.results.length ≤ urls.length := by
  cases hl : env.launch b n <;> simp [processSingleBrowser, hl]

theorem tallyS_imp_not_tallyE {T : Type} (dt : T → Bool) (pr : EachPageResult T) :
    tallyS dt pr = true → tallyE dt pr = false := by
  intro h
  simp [tallyE, h]

theorem session_countE_allError {T : Type} (env : ScrapeEnv T) (urls : List String)
    (b n : Nat) (hl : env.launch b n = .ok)
    (hw : ∀ url, ∃ m, env.workFn url = Except.error m) :
    (processSingleBrowser env urls b n).fst.results.countP (tallyE env.dataTruthy)
      = urls.length := by
  rw [processSingleBrowser_ok_results env urls b n hl, List.countP_map]
  have hlen : urls.enum.length = urls.length := List.enumFrom_length
  rw [← hlen, List.countP_eq_length]
  intro x _
  rcases x with ⟨i, u⟩
  obtain ⟨m, hm⟩ := hw u
  cases hnp : env.newPage b n i with
  | error me =>
      simp [Function.comp, processPage, hnp, tallyE, tallyS, strTruthy,
        pageErrorMessage_ne_empty]
  | ok u0 =>
      simp [Function.comp, processPage, hnp, hm, tallyE, tallyS, strTruthy,
        pageErrorMessage_ne_empty]

theorem session_countS_allError {T : Type} (env : ScrapeEnv T) (urls : List String)
    (b n : Nat) (hl : env.launch b n = .ok)
    (hw : ∀ url, ∃ m, env.workFn url = Except.error m) :
    (processSingleBrowser env urls b n).fst.results.countP (tallyS env.dataTruthy) = 0 := by
  rw [processSingleBrowser_ok_results env urls b n hl, List.countP_map]
  rw [List.countP_eq_zero]
  intro x _
  rcases x with ⟨i, u⟩
  obtain ⟨m, hm⟩ := hw u
  cases hnp : env.newPage b n i with
  | error me => simp [Function.comp, processPage, hnp, tallyS]
  | ok u0 => simp [Function.comp, processPage, hnp, hm, tallyS]

theorem session_counts_total {T : Type} (env : ScrapeEnv T) (urls : List String)
    (b n : Nat) (hl : env.launch b n = .ok)
    (hdt : ∀ url d, env.workFn url = Except.ok d → env.dataTruthy d = true) :
    (processSingleBrowser env urls b n).fst.results.countP (tallyS env.dataTruthy)
      + (processSingleBrowser env urls b n).fst.results.countP (tallyE env.dataTruthy)
      = urls.length := by
  rw [processSingleBrowser_ok_results env urls b n hl, List.countP_map, List.countP_map]
  have hlen : urls.enum.length = urls.length := List.enumFrom_length
  rw [← hlen]
  apply countP_add_countP_of_total
  · intro x _ hS
    simp only [Function.comp] at hS ⊢
    exact tallyS_imp_not_tallyE env.dataTruthy _ hS
  · intro x _
    rcases x with ⟨i, u⟩
    cases hnp : env.newPage b n i with
    | error me =>
        right
        simp [Function.comp, processPage, hnp, tallyE, tallyS, strTruthy,
          pageErrorMessage_ne_empty]
    | ok u0 =>
        cases hwf : env.workFn u with
        | ok d =>
            left
            simp [Function.comp, processPage, hnp, hwf, tallyS, hdt u d hwf]
        | error m =>
            right
            simp [Function.comp, processPage, hnp, hwf, tallyE, tallyS, strTruthy,
              pageErrorMessage_ne_empty]

/-! Batch-level count bounds. -/

theorem batch_results_length_sum_le {T : Type} (env : ScrapeEnv T) (u : List String) (n : Nat) :
    ((processBatchOfBrowsers env u n).map fun br => br.results.length).sum ≤ u.length := by
  calc ((processBatchOfBrowsers env u n).map fun br => br.results.length).sum
      = (((chunkList env.maxPagesPerBrowser u).enum).map
          fun p => (processSingleBrowser env p.2 (p.1 + 1) n).fst.results.length).sum := by
        rw [processBatchOfBrowsers, List.map_map]
        rfl
    _ ≤ ((chunkList env.maxPagesPerBrowser u).map List.length).sum := by
        apply sum_map_enumFrom_le
        intro i a
        exact processSingleBrowser_results_length_le env a (i + 1) n
    _ ≤ u.length := chunkList_sum_le env.maxPagesPerBrowser u

theorem batchCounts_le {T : Type} (env : ScrapeEnv T) (faults : Nat → Option String)
    (p : Nat × List String) :
    batchCountS env faults p + batchCountE env faults p ≤ p.2.length := by
  cases hf : faults (p.1 + 1) with
  | some msg => simp [batchCountS, batchCountE, hf]
  | none =>
      simp only [batchCountS, batchCountE, hf]
      calc brsCountS env.dataTruthy (processBatchOfBrowsers env p.2 (p.1 + 1))
            + brsCountE env.dataTruthy (processBatchOfBrowsers env p.2 (p.1 + 1))
          = ((processBatchOfBrowsers env p.2 (p.1 + 1)).map
              fun br => br.results.countP (tallyS env.dataTruthy)
                + br.results.countP (tallyE env.dataTruthy)).sum := by
            rw [brsCountS, brsCountE, sum_map_add]
        _ ≤ ((processBatchOfBrowsers env p.2 (p.1 + 1)).map
              fun br => br.results.length).sum := by
            apply List.sum_le_sum
            intro br _
            exact countP_add_countP_le_length _ _ _
              (fun pr _ => tallyS_imp_not_tallyE env.dataTruthy pr)
        _ ≤ p.2.length := batch_results_length_sum_le env p.2 (p.1 + 1)

theorem enum_eq_enumFrom {α : Type} (l : List α) : l.enum = List.enumFrom 0 l := rfl

/-- Sample oracle with one session of one page, an always-succeeding work
function and always-truthy data; used to instantiate hypotheses of claim
theorems in their witnesses. -/
def okEnv : ScrapeEnv Nat :=
  { maxBrowserSessions := 1
    maxPagesPerBrowser := 1
    launch := fun _ _ => .ok
    newPage := fun _ _ _ => Except.ok ()
    workFn := fun _ => Except.ok 1
    dataTruthy := fun _ => true }

/-- C9: for the empty input list, the handler returns `success: false` (since
`0 < 0` is false), empty results and errors, zero counts, zero batches, and
`totalUrls = 0`, under every oracle. -/
theorem C9_empty_input {T : Type} (env : ScrapeEnv T) (faults : Nat → Option String) :
    BrowserBatchHandler env faults [] =
      { success := false, results := [], errors := [], successCount := 0,
        errorCount := 0, totalUrls := 0, batches := 0, duration := 0 } := rfl

/-- C2: under every oracle (any launch, page, work-function and batch-fault
outcomes), the report satisfies `successCount + errorCount ≤ totalUrls` and
the results array length equals `successCount`. -/
theorem C2_conservation {T : Type} (env : ScrapeEnv T) (faults : Nat → Option String)
    (urlItems : List String) :
    (BrowserBatchHandler env faults urlItems).successCount
        + (BrowserBatchHandler env faults urlItems).errorCount
      ≤ (BrowserBatchHandler env faults urlItems).totalUrls
    ∧ (BrowserBatchHandler env faults urlItems).results.length
      = (BrowserBatchHandler env faults urlItems).successCount := by
  constructor
  · rw [report_successCount, report_errorCount]
    have htot : (BrowserBatchHandler env faults urlItems).totalUrls = urlItems.length := rfl
    rw [htot]
    calc ((chunkList (totalConcurrentUrls env) urlItems).enum.map (batchCountS env faults)).sum
          + ((chunkList (totalConcurrentUrls env) urlItems).enum.map (batchCountE env faults)).sum
        = ((chunkList (totalConcurrentUrls env) urlItems).enum.map
            fun p => batchCountS env faults p + batchCountE env faults p).sum := by
          rw [sum_map_add]
      _ ≤ ((chunkList (totalConcurrentUrls env) urlItems).enum.map
            fun p => p.2.length).sum := by
          apply List.sum_le_sum
          intro p _
          exact batchCounts_le env faults p
      _ = ((chunkList (totalConcurrentUrls env) urlItems).map List.length).sum := by
          rw [enum_eq_enumFrom]
          exact sum_map_enumFrom_eq _ _ (fun i a => rfl) 0 _
      _ ≤ urlItems.length := chunkList_sum_le _ _
  · rw [report_results_length, report_successCount]

/-- C8: after any single browser session, the number of `page.close()` calls
made by the cleanup block equals the number of pages opened, and
`browser.close()` is called exactly once when launch yielded a usable handle
and zero times otherwise (null handle or thrown launch). -/
theorem C8_cleanup {T : Type} (env : ScrapeEnv T) (urls : List String) (b n : Nat) :
    (processSingleBrowser env urls b n).snd.pageCloseCalls
        = (processSingleBrowser env urls b n).snd.pagesOpened
    ∧ (processSingleBrowser env urls b n).snd.browserCloseCalls
        = (if env.launch b n = LaunchOutcome.ok then 1 else 0)
    ∧ ((processSingleBrowser env urls b n).snd.browserLaunched = true
        ↔ env.launch b n = LaunchOutcome.ok) := by
  cases hl : env.launch b n <;> simp [processSingleBrowser, hl]

/-- C4: chunking is a partition into contiguous groups (their concatenation
restores the input and every chunk is nonempty of size at most `sz`); the
handler forms `chunkList (sessionCount * sessionCapacity)` super-batches and
the batch coordinator one session per `chunkList sessionCapacity` group; with
chunk size 2 and five items, exactly 3 chunks of sizes 2, 2, 1 arise. -/
theorem C4_batching {α : Type} {T : Type} (sz : Nat) (hsz : 0 < sz) (l : List α)
    (env : ScrapeEnv T) (faults : Nat → Option String) (items : List String) (n : Nat) :
    (chunkList sz l).flatten = l
    ∧ (∀ c ∈ chunkList sz l, c ≠ [] ∧ c.length ≤ sz)
    ∧ (BrowserBatchHandler env faults items).batches
        = (chunkList (env.maxBrowserSessions * env.maxPagesPerBrowser) items).length
    ∧ (processBatchOfBrowsers env items n).length
        = (chunkList env.maxPagesPerBrowser items).length
    ∧ chunkList 2 ["a", "b", "c", "d", "e"] = [["a", "b"], ["c", "d"], ["e"]] := by
  refine ⟨chunkList_flatten sz hsz l, chunkList_mem sz hsz l, rfl, ?_, by decide⟩
  simp [processBatchOfBrowsers]

/-- Witness for C4 at `sz = 2` and a five-element list. -/
theorem C4_batching_witness :
    (chunkList 2 [1, 2, 3, 4, 5]).flatten = [1, 2, 3, 4, 5]
    ∧ (∀ c ∈ chunkList 2 [1, 2, 3, 4, 5], c ≠ [] ∧ c.length ≤ 2)
    ∧ (BrowserBatchHandler okEnv noFaults ["x"]).batches
        = (chunkList (okEnv.maxBrowserSessions * okEnv.maxPagesPerBrowser) ["x"]).length
    ∧ (processBatchOfBrowsers okEnv ["x"] 1).length
        = (chunkList okEnv.maxPagesPerBrowser ["x"]).length
    ∧ chunkList 2 ["a", "b", "c", "d", "e"] = [["a", "b"], ["c", "d"], ["e"]] :=
  C4_batching 2 (by decide) [1, 2, 3, 4, 5] okEnv noFaults ["x"] 1

theorem batchCountE_allError {T : Type} (env : ScrapeEnv T) (faults : Nat → Option String)
    (hC : 0 < env.maxPagesPerBrowser)
    (hl : ∀ b n, env.launch b n = .ok)
    (hw : ∀ url, ∃ m, env.workFn url = Except.error m) :
    ∀ (i : Nat) (a : List String), batchCountE env faults (i, a) = a.length := by
  intro i a
  cases hf : faults (i + 1) with
  | some msg => simp [batchCountE, hf]
  | none =>
      simp only [batchCountE, hf]
      rw [brsCountE, processBatchOfBrowsers, List.map_map, enum_eq_enumFrom]
      calc ((List.enumFrom 0 (chunkList env.maxPagesPerBrowser a)).map
              fun p => ((processSingleBrowser env p.2 (p.1 + 1) (i + 1)).fst).results.countP
                (tallyE env.dataTruthy)).sum
          = ((chunkList env.maxPagesPerBrowser a).map List.length).sum := by
            apply sum_map_enumFrom_eq
            intro j c
            exact session_countE_allError env c (j + 1) (i + 1) (hl _ _) hw
        _ = a.length := chunkList_sum_eq _ hC a

theorem batchCountS_allError {T : Type} (env : ScrapeEnv T) (faults : Nat → Option String)
    (hl : ∀ b n, env.launch b n = .ok)
    (hw : ∀ url, ∃ m, env.workFn url = Except.error m) :
    ∀ (i : Nat) (a : List String), batchCountS env faults (i, a) = 0 := by
  intro i a
  cases hf : faults (i + 1) with
  | some msg => simp [batchCountS, hf]
  | none =>
      simp only [batchCountS, hf]
      rw [brsCountS, processBatchOfBrowsers, List.map_map, enum_eq_enumFrom]
      show ((List.enumFrom 0 (chunkList env.maxPagesPerBrowser a)).map
          fun p => ((processSingleBrowser env p.2 (p.1 + 1) (i + 1)).fst).results.countP
            (tallyS env.dataTruthy)).sum = 0
      have hzero : ((List.enumFrom 0 (chunkList env.maxPagesPerBrowser a)).map
          fun p => ((processSingleBrowser env p.2 (p.1 + 1) (i + 1)).fst).results.countP
            (tallyS env.dataTruthy)).sum
          = ((chunkList env.maxPagesPerBrowser a).map fun _ => 0).sum := by
        apply sum_map_enumFrom_eq
        intro j c
        exact session_countS_allError env c (j + 1) (i + 1) (hl _ _) hw
      rw [hzero]
      simp

/-- C1: the handler is a total function of the oracle — every combination of
operational failures (including a throwing batch coordinator) yields a
report — and when every session launches and the work function throws for
every item, the report has `success = false` and `errorCount` equal to the
number of items. -/
theorem C1_never_throw_all_fail {T : Type} (env : ScrapeEnv T) (faults : Nat → Option String)
    (urlItems : List String)
    (hS : 0 < env.maxBrowserSessions) (hC : 0 < env.maxPagesPerBrowser)
    (hl : ∀ b n, env.launch b n = .ok)
    (hw : ∀ url, ∃ m, env.workFn url = Except.error m) :
    (BrowserBatchHandler env faults urlItems).success = false
    ∧ (BrowserBatchHandler env faults urlItems).errorCount = urlItems.length := by
  have herr : (BrowserBatchHandler env faults urlItems).errorCount = urlItems.length := by
    rw [report_errorCount, enum_eq_enumFrom]
    calc ((List.enumFrom 0 (chunkList (totalConcurrentUrls env) urlItems)).map
            (batchCountE env faults)).sum
        = ((chunkList (totalConcurrentUrls env) urlItems).map List.length).sum := by
          apply sum_map_enumFrom_eq
          intro i a
          exact batchCountE_allError env faults hC hl hw i a
      _ = urlItems.length := chunkList_sum_eq _ (Nat.mul_pos hS hC) urlItems
  refine ⟨?_, herr⟩
  have hflag : (BrowserBatchHandler env faults urlItems).success
      = decide ((BrowserBatchHandler env faults urlItems).errorCount < urlItems.length) := rfl
  rw [hflag, herr]
  simp

/-- Oracle in which every session launches but the work function throws for
every url; instantiates the hypotheses of C1's theorem. -/
def allFailEnv : ScrapeEnv Nat :=
  { maxBrowserSessions := 2
    maxPagesPerBrowser := 2
    launch := fun _ _ => .ok
    newPage := fun _ _ _ => Except.ok ()
    workFn := fun _ => Except.error "boom"
    dataTruthy := fun _ => true }

/-- Witness for C1: three items, an always-throwing work function. -/
theorem C1_never_throw_all_fail_witness :
    (BrowserBatchHandler allFailEnv noFaults ["a", "b", "c"]).success = false
    ∧ (BrowserBatchHandler allFailEnv noFaults ["a", "b", "c"]).errorCount
      = (["a", "b", "c"] : List String).length :=
  C1_never_throw_all_fail allFailEnv noFaults ["a", "b", "c"] (by decide) (by decide)
    (fun _ _ => rfl) (fun _ => ⟨"boom", rfl⟩)

theorem report_counts_total {T : Type} (env : ScrapeEnv T) (items : List String)
    (hS : 0 < env.maxBrowserSessions) (hC : 0 < env.maxPagesPerBrowser)
    (hl : ∀ b n, env.launch b n = .ok)
    (hdt : ∀ url d, env.workFn url = Except.ok d → env.dataTruthy d = true) :
    (BrowserBatchHandler env noFaults items).successCount
      + (BrowserBatchHandler env noFaults items).errorCount = items.length := by
  rw [report_successCount, report_errorCount, sum_map_add, enum_eq_enumFrom]
  have hpoint : ∀ (i : Nat) (a : List String),
      batchCountS env noFaults (i, a) + batchCountE env noFaults (i, a) = a.length := by
    intro i a
    simp only [batchCountS, batchCountE, noFaults]
    rw [brsCountS, brsCountE, sum_map_add, processBatchOfBrowsers, List.map_map,
      enum_eq_enumFrom]
    show ((List.enumFrom 0 (chunkList env.maxPagesPerBrowser a)).map
        fun p => ((processSingleBrowser env p.2 (p.1 + 1) (i + 1)).fst).results.countP
            (tallyS env.dataTruthy)
          + ((processSingleBrowser env p.2 (p.1 + 1) (i + 1)).fst).results.countP
            (tallyE env.dataTruthy)).sum = a.length
    calc ((List.enumFrom 0 (chunkList env.maxPagesPerBrowser a)).map
            fun p => ((processSingleBrowser env p.2 (p.1 + 1) (i + 1)).fst).results.countP
                (tallyS env.dataTruthy)
              + ((processSingleBrowser env p.2 (p.1 + 1) (i + 1)).fst).results.countP
                (tallyE env.dataTruthy)).sum
        = ((chunkList env.maxPagesPerBrowser a).map List.length).sum := by
          apply sum_map_enumFrom_eq
          intro j c
          exact session_counts_total env c (j + 1) (i + 1) (hl _ _) hdt
      _ = a.length := chunkList_sum_eq _ hC a
  calc ((List.enumFrom 0 (chunkList (totalConcurrentUrls env) items)).map
          fun p => batchCountS env noFaults p + batchCountE env noFaults p).sum
      = ((chunkList (totalConcurrentUrls env) items).map List.length).sum := by
        apply sum_map_enumFrom_eq
        intro i a
        exact hpoint i a
    _ = items.length := chunkList_sum_eq _ (Nat.mul_pos hS hC) items

/-- Oracle in which the browser launch yields a `null` handle for every
session while the work function throws for every url.  With one item the
handler then reports `success = true` (because `errorCount = 0 < 1`) even
though no work-function invocation ever succeeded — no invocation even
happened. -/
def cexEnv : ScrapeEnv Nat :=
  { maxBrowserSessions := 10
    maxPagesPerBrowser := 5
    launch := fun _ _ => .nullBrowser
    newPage := fun _ _ _ => Except.ok ()
    workFn := fun _ => Except.error "boom"
    dataTruthy := fun _ => true }

/-- Counterexample to C3: with one item and a launch that yields no usable
handle, the report's `success` flag is `true` while zero work-function
invocations succeeded (`totalWorkFnSuccesses = 0`, `successCount = 0`, and the
work function is `Except.error` on every url anyway), so the flag is not
equivalent to "at least one item's work function invocation succeeded". -/
theorem C3_counterexample :
    (BrowserBatchHandler cexEnv noFaults ["a"]).success = true
    ∧ (BrowserBatchHandler cexEnv noFaults ["a"]).successCount = 0
    ∧ (BrowserBatchHandler cexEnv noFaults ["a"]).errorCount = 0
    ∧ totalWorkFnSuccesses cexEnv ["a"] = 0 := by decide

/-- C3 (amended): the report's `success` flag always equals
`decide (errorCount < totalUrls)`; the gloss "at least one item succeeded"
holds only when every item is tallied — when every session launches, the
batch coordinator never throws and every successful datum is truthy, the flag
is `true` exactly when `successCount` is positive.  (With launch-failed
sessions the flag can be `true` with zero successes, per the
counterexample.) -/
theorem C3_success_flag {T : Type} (env : ScrapeEnv T) (faults : Nat → Option String)
    (urlItems : List String) :
    ((BrowserBatchHandler env faults urlItems).success
      = decide ((BrowserBatchHandler env faults urlItems).errorCount
          < (BrowserBatchHandler env faults urlItems).totalUrls))
    ∧ (0 < env.maxBrowserSessions → 0 < env.maxPagesPerBrowser →
        (∀ b n, env.launch b n = .ok) →
        (∀ url d, env.workFn url = Except.ok d → env.dataTruthy d = true) →
        faults = noFaults →
        ((BrowserBatchHandler env faults urlItems).success = true
          ↔ 0 < (BrowserBatchHandler env faults urlItems).successCount)) := by
  constructor
  · rfl
  · intro hS hC hl hdt hfaults
    subst hfaults
    have hcons := report_counts_total env urlItems hS hC hl hdt
    have hflag : (BrowserBatchHandler env noFaults urlItems).success
        = decide ((BrowserBatchHandler env noFaults urlItems).errorCount
            < urlItems.length) := rfl
    rw [hflag]
    rw [decide_eq_true_iff]
    omega

/-- Witness for C3's amended theorem: one item, everything succeeds, the flag
is `true` and `successCount = 1 > 0`. -/
theorem C3_success_flag_witness :
    ((BrowserBatchHandler okEnv noFaults ["a"]).success
      = decide ((BrowserBatchHandler okEnv noFaults ["a"]).errorCount
          < (BrowserBatchHandler okEnv noFaults ["a"]).totalUrls))
    ∧ ((BrowserBatchHandler okEnv noFaults ["a"]).success = true
        ↔ 0 < (BrowserBatchHandler okEnv noFaults ["a"]).successCount) :=
  ⟨(C3_success_flag okEnv noFaults ["a"]).1,
    (C3_success_flag okEnv noFaults ["a"]).2 (by decide) (by decide)
      (fun _ _ => rfl) (fun _ d _ => rfl) rfl⟩

/-- C10: a page result whose work function resolved with a falsy value has
`success: true` but is skipped by the aggregation loop: both the `success &&
data` test and the `else if (error)` test fail, so neither list nor counter
changes — the item is absent from every tally. -/
theorem C10_falsy_data {T : Type} (env : ScrapeEnv T) (b n : Nat) (url : String)
    (i : Nat) (d : T)
    (hnp : env.newPage b n i = Except.ok ())
    (hwf : env.workFn url = Except.ok d)
    (hdt : env.dataTruthy d = false) :
    (processPage env b n url i).fst = ⟨true, some d, none⟩
    ∧ ∀ s : AggState T, aggregatePageResult env.dataTruthy s ((processPage env b n url i).fst)
        = s := by
  have h1 : (processPage env b n url i).fst = ⟨true, some d, none⟩ := by
    simp [processPage, hnp, hwf]
  refine ⟨h1, ?_⟩
  intro s
  rw [h1]
  simp [aggregatePageResult, hdt, aggregatePageError]

/-- Oracle whose work function resolves with the falsy value `0` for every
url (JavaScript number truthiness), instantiating C10's hypotheses. -/
def falsyEnv : ScrapeEnv Nat :=
  { maxBrowserSessions := 1
    maxPagesPerBrowser := 1
    launch := fun _ _ => .ok
    newPage := fun _ _ _ => Except.ok ()
    workFn := fun _ => Except.ok 0
    dataTruthy := fun d => decide (d ≠ 0) }

/-- Witness for C10: the work function resolves with falsy `0`; the page
result is a success but aggregating it over the initial state changes
nothing. -/
theorem C10_falsy_data_witness :
    (processPage falsyEnv 1 1 "a" 0).fst = ⟨true, some 0, none⟩
    ∧ aggregatePageResult falsyEnv.dataTruthy initAgg ((processPage falsyEnv 1 1 "a" 0).fst)
        = initAgg :=
  ⟨(C10_falsy_data falsyEnv 1 1 "a" 0 0 rfl rfl rfl).1,
    (C10_falsy_data falsyEnv 1 1 "a" 0 0 rfl rfl rfl).2 initAgg⟩

/-- C6: when launch yields no usable handle for a session, that session
returns empty results with the launch-failure error and a zero trace (no page
opened, no work-function call); aggregating such a session result appends the
error string exactly once to the aggregate errors and leaves both counters
and the results untouched; and every session of a batch is the independent
image of its own chunk, so the rest of the pool proceeds unaffected. -/
theorem C6_launch_null {T : Type} (env : ScrapeEnv T) (urls items : List String)
    (b n j : Nat) (h : env.launch b n = .nullBrowser) :
    processSingleBrowser env urls b n
        = (⟨[], some launchNullMessage, b⟩, ⟨0, 0, false, 0, 0, 0⟩)
    ∧ (∀ s : AggState T,
        aggregateBrowserResult env.dataTruthy s ⟨[], some launchNullMessage, b⟩
          = { s with aggregatedErrors := s.aggregatedErrors ++ [launchNullMessage] })
    ∧ (processBatchOfBrowsers env items n)[j]?
        = ((chunkList env.maxPagesPerBrowser items)[j]?).map
            (fun c => (processSingleBrowser env c (j + 1) n).fst) := by
  refine ⟨by simp [processSingleBrowser, h], ?_, ?_⟩
  · intro s
    simp [aggregateBrowserResult, aggregateSessionError, launchNullMessage_ne_empty]
  · rw [processBatchOfBrowsers, List.getElem?_map, enum_eq_enumFrom,
      List.getElem?_enumFrom]
    cases hc : (chunkList env.maxPagesPerBrowser items)[j]? with
    | none => rfl
    | some c => simp

/-- Oracle whose launch always yields a `null` handle, instantiating the
hypothesis of C6's theorem. -/
def nullEnv : ScrapeEnv Nat :=
  { maxBrowserSessions := 1
    maxPagesPerBrowser := 2
    launch := fun _ _ => .nullBrowser
    newPage := fun _ _ _ => Except.ok ()
    workFn := fun _ => Except.ok 1
    dataTruthy := fun _ => true }

/-- Witness for C6 at a two-item session whose launch yields `null`. -/
theorem C6_launch_null_witness :
    processSingleBrowser nullEnv ["a", "b"] 1 1
        = (⟨[], some launchNullMessage, 1⟩, ⟨0, 0, false, 0, 0, 0⟩)
    ∧ aggregateBrowserResult nullEnv.dataTruthy initAgg ⟨[], some launchNullMessage, 1⟩
        = (⟨[], [launchNullMessage], 0, 0⟩ : AggState Nat)
    ∧ (processBatchOfBrowsers nullEnv ["a", "b"] 1)[0]?
        = ((chunkList nullEnv.maxPagesPerBrowser ["a", "b"])[0]?).map
            (fun c => (processSingleBrowser nullEnv c (0 + 1) 1).fst) :=
  ⟨(C6_launch_null nullEnv ["a", "b"] ["a", "b"] 1 1 0 rfl).1,
    (C6_launch_null nullEnv ["a", "b"] ["a", "b"] 1 1 0 rfl).2.1 initAgg,
    (C6_launch_null nullEnv ["a", "b"] ["a", "b"] 1 1 0 rfl).2.2⟩

/-- C7: in a session whose launch succeeded and whose work function throws
for the `i`-th item but succeeds for every sibling, the session's results
list has one entry per item, the entry at position `i` is the sole
`success: false` entry and carries the page error message containing the
failing item's url, and every other position holds a `success: true`
entry. -/
theorem C7_isolation {T : Type} (env : ScrapeEnv T) (urls : List String)
    (b n i : Nat) (u m : String)
    (hl : env.launch b n = .ok)
    (hnp : ∀ p, env.newPage b n p = Except.ok ())
    (hu : urls[i]? = some u)
    (hm : env.workFn u = Except.error m)
    (hsib : ∀ j v, j ≠ i → urls[j]? = some v → ∃ d, env.workFn v = Except.ok d) :
    (processSingleBrowser env urls b n).fst.results.length = urls.length
    ∧ (processSingleBrowser env urls b n).fst.results[i]?
        = some ⟨false, none, some (pageErrorMessage u b i m)⟩
    ∧ ∀ j, j < urls.length → j ≠ i →
        ∃ d, (processSingleBrowser env urls b n).fst.results[j]?
          = some ⟨true, some d, none⟩ := by
  have hres := processSingleBrowser_ok_results env urls b n hl
  refine ⟨by rw [hres]; simp, ?_, ?_⟩
  · rw [hres, List.getElem?_map, enum_eq_enumFrom, List.getElem?_enumFrom, hu]
    simp [processPage, hnp i, hm]
  · intro j hj hne
    have hv : urls[j]? = some urls[j] := List.getElem?_eq_getElem hj
    obtain ⟨d, hd⟩ := hsib j urls[j] hne hv
    refine ⟨d, ?_⟩
    rw [hres, List.getElem?_map, enum_eq_enumFrom, List.getElem?_enumFrom, hv]
    simp [processPage, hnp j, hd]

/-- Oracle whose work function throws exactly for the url `"b"`,
instantiating C7's hypotheses. -/
def isoEnv : ScrapeEnv Nat :=
  { maxBrowserSessions := 1
    maxPagesPerBrowser := 2
    launch := fun _ _ => .ok
    newPage := fun _ _ _ => Except.ok ()
    workFn := fun s => if s = "b" then Except.error "boom" else Except.ok 7
    dataTruthy := fun _ => true }

/-- Witness for C7: two items, the work function throws only for the second
one. -/
theorem C7_isolation_witness :
    (processSingleBrowser isoEnv ["a", "b"] 1 1).fst.results.length
        = (["a", "b"] : List String).length
    ∧ (processSingleBrowser isoEnv ["a", "b"] 1 1).fst.results[1]?
        = some ⟨false, none, some (pageErrorMessage "b" 1 1 "boom")⟩
    ∧ ∀ j, j < (["a", "b"] : List String).length → j ≠ 1 →
        ∃ d, (processSingleBrowser isoEnv ["a", "b"] 1 1).fst.results[j]?
          = some ⟨true, some d, none⟩ :=
  C7_isolation isoEnv ["a", "b"] 1 1 1 "b" "boom" rfl (fun _ => rfl) rfl rfl
    (by
      intro j v hj hv
      match j with
      | 0 =>
          have hv' : v = "a" := by simpa using hv.symm
          subst hv'
          exact ⟨7, rfl⟩
      | 1 => exact absurd rfl hj
      | j + 2 => simp at hv)

/-! Decomposition of the batch loop: every aggregation step only appends to
the lists and adds to the counters, so the loop state over a concatenation of
batch ranges is the pointwise concatenation of the per-range states. -/

/-- Pointwise concatenation of aggregation states. -/
def aggAppend {T : Type} (a b : AggState T) : AggState T :=
  ⟨a.aggregatedResults ++ b.aggregatedResults, a.aggregatedErrors ++ b.aggregatedErrors,
   a.successCount + b.successCount, a.errorCount + b.errorCount⟩

theorem aggAppend_initAgg_right {T : Type} (a : AggState T) : aggAppend a initAgg = a := by
  rcases a with ⟨r, er, sc, ec⟩
  simp [aggAppend, initAgg]

theorem aggAppend_assoc {T : Type} (a b c : AggState T) :
    aggAppend (aggAppend a b) c = aggAppend a (aggAppend b c) := by
  rcases a with ⟨r1, e1, s1, c1⟩
  rcases b with ⟨r2, e2, s2, c2⟩
  rcases c with ⟨r3, e3, s3, c3⟩
  simp [aggAppend, List.append_assoc, Nat.add_assoc]

theorem aggregatePageError_hom {T : Type} (s : AggState T) (e : Option String) :
    aggregatePageError s e = aggAppend s (aggregatePageError initAgg e) := by
  rcases s with ⟨r, er, sc, ec⟩
  cases e with
  | none => simp [aggregatePageError, aggAppend, initAgg]
  | some m =>
      by_cases hm : m = "" <;> simp [aggregatePageError, hm, aggAppend, initAgg]

theorem aggregatePageResult_hom {T : Type} (dt : T → Bool) (s : AggState T)
    (pr : EachPageResult T) :
    aggregatePageResult dt s pr = aggAppend s (aggregatePageResult dt initAgg pr) := by
  rcases pr with ⟨succ, data, err⟩
  cases data with
  | none => cases succ <;> exact aggregatePageError_hom s err
  | some d =>
      cases succ with
      | false => exact aggregatePageError_hom s err
      | true =>
          by_cases hd : dt d
          · rcases s with ⟨r, er, sc, ec⟩
            simp [aggregatePageResult, hd, aggAppend, initAgg]
          · show (if dt d then _ else aggregatePageError s err)
              = aggAppend s (if dt d then _ else aggregatePageError initAgg err)
            rw [if_neg hd, if_neg hd]
            exact aggregatePageError_hom s err

theorem aggregateSessionError_hom {T : Type} (s : AggState T) (e : Option String) :
    aggregateSessionError s e = aggAppend s (aggregateSessionError initAgg e) := by
  rcases s with ⟨r, er, sc, ec⟩
  cases e with
  | none => simp [aggregateSessionError, aggAppend, initAgg]
  | some m =>
      by_cases hm : m = "" <;> simp [aggregateSessionError, hm, aggAppend, initAgg]

theorem foldl_aggAppend {T : Type} {β : Type} (f : AggState T → β → AggState T)
    (hf : ∀ s x, f s x = aggAppend s (f initAgg x)) :
    ∀ (l : List β) (s : AggState T), l.foldl f s = aggAppend s (l.foldl f initAgg) := by
  intro l
  induction l with
  | nil => intro s; simp [aggAppend_initAgg_right]
  | cons x l ih =>
      intro s
      rw [List.foldl_cons, List.foldl_cons, ih (f s x), ih (f initAgg x), hf s x,
        aggAppend_assoc]

theorem aggregateBrowserResult_hom {T : Type} (dt : T → Bool) (s : AggState T)
    (br : SingleBrowserResult T) :
    aggregateBrowserResult dt s br = aggAppend s (aggregateBrowserResult dt initAgg br) := by
  rw [aggregateBrowserResult, aggregateBrowserResult,
    foldl_aggAppend (aggregatePageResult dt) (aggregatePageResult_hom dt) br.results
      (aggregateSessionError s br.error),
    foldl_aggAppend (aggregatePageResult dt) (aggregatePageResult_hom dt) br.results
      (aggregateSessionError initAgg br.error),
    aggregateSessionError_hom s br.error, aggAppend_assoc]

theorem aggregateBatch_hom {T : Type} (env : ScrapeEnv T) (faults : Nat → Option String)
    (s : AggState T) (p : Nat × List String) :
    aggregateBatch env faults s p = aggAppend s (aggregateBatch env faults initAgg p) := by
  cases hf : faults (p.1 + 1) with
  | some msg =>
      rcases s with ⟨r, er, sc, ec⟩
      simp [aggregateBatch, hf, aggAppend, initAgg]
  | none =>
      simp only [aggregateBatch, hf]
      exact foldl_aggAppend (aggregateBrowserResult env.dataTruthy)
        (aggregateBrowserResult_hom env.dataTruthy) _ s

theorem enumFrom_append_eq {α : Type} (l₁ l₂ : List α) :
    ∀ n : Nat, List.enumFrom n (l₁ ++ l₂)
      = List.enumFrom n l₁ ++ List.enumFrom (n + l₁.length) l₂ := by
  induction l₁ with
  | nil => intro n; simp
  | cons a l₁ ih =>
      intro n
      simp only [List.cons_append, List.enumFrom_cons, ih (n + 1), List.length_cons]
      have h : n + 1 + l₁.length = n + (l₁.length + 1) := by omega
      rw [h]

/-- Super-batches of one orchestrator run: the input split into chunks of
`TOTAL_CONCURRENT_URLS`. -/
def superBatches {T : Type} (env : ScrapeEnv T) (items : List String) : List (List String) :=
  chunkList (totalConcurrentUrls env) items

/-- Aggregation state produced by running the batch loop over a range of
super-batches whose first batch index is `start`. -/
def aggRunFrom {T : Type} (env : ScrapeEnv T) (faults : Nat → Option String)
    (start : Nat) (bs : List (List String)) : AggState T :=
  (List.enumFrom start bs).foldl (aggregateBatch env faults) initAgg

theorem BrowserBatchHandler_errors_eq {T : Type} (env : ScrapeEnv T)
    (faults : Nat → Option String) (items : List String) :
    (BrowserBatchHandler env faults items).errors
      = (aggRunFrom env faults 0 (superBatches env items)).aggregatedErrors := rfl

theorem aggRunFrom_split {T : Type} (env : ScrapeEnv T) (faults : Nat → Option String)
    (items : List String) (k : Nat) (hk : k < (superBatches env items).length) :
    aggRunFrom env faults 0 (superBatches env items)
      = aggAppend
          (aggAppend (aggRunFrom env faults 0 ((superBatches env items).take k))
            (aggregateBatch env faults initAgg (k, (superBatches env items)[k])))
          (aggRunFrom env faults (k + 1) ((superBatches env items).drop (k + 1))) := by
  have hsplit : superBatches env items
      = (superBatches env items).take k
        ++ (superBatches env items)[k] :: (superBatches env items).drop (k + 1) := by
    conv_lhs => rw [← List.take_append_drop k (superBatches env items)]
    rw [List.drop_eq_getElem_cons hk]
  have htk : ((superBatches env items).take k).length = k := by
    rw [List.length_take]
    omega
  rw [aggRunFrom]
  conv_lhs => rw [hsplit]
  rw [enumFrom_append_eq, htk, Nat.zero_add, List.enumFrom_cons, List.foldl_append,
    List.foldl_cons,
    foldl_aggAppend (aggregateBatch env faults) (aggregateBatch_hom env faults),
    aggregateBatch_hom env faults _ (k, (superBatches env items)[k])]
  rfl

/-- C5: if the batch coordinator invocation for super-batch `k` throws, the
final report decomposes as: the errors are those of the preceding batches,
then exactly one synthetic `batchFailureMessage`, then the errors of all
subsequent batches (which are therefore still processed — no early abort);
the error count is the preceding count plus the whole length of super-batch
`k` plus the subsequent count; and success tallies come only from the other
batches. -/
theorem C5_batch_fault {T : Type} (env : ScrapeEnv T) (faults : Nat → Option String)
    (items : List String) (k : Nat) (msg : String)
    (hk : k < (superBatches env items).length)
    (hf : faults (k + 1) = some msg) :
    (BrowserBatchHandler env faults items).errors
        = (aggRunFrom env faults 0 ((superBatches env items).take k)).aggregatedErrors
          ++ batchFailureMessage (k + 1) msg
            :: (aggRunFrom env faults (k + 1)
                ((superBatches env items).drop (k + 1))).aggregatedErrors
    ∧ (BrowserBatchHandler env faults items).errorCount
        = (aggRunFrom env faults 0 ((superBatches env items).take k)).errorCount
          + (((superBatches env items)[k]?).getD []).length
          + (aggRunFrom env faults (k + 1)
              ((superBatches env items).drop (k + 1))).errorCount
    ∧ (BrowserBatchHandler env faults items).successCount
        = (aggRunFrom env faults 0 ((superBatches env items).take k)).successCount
          + (aggRunFrom env faults (k + 1)
              ((superBatches env items).drop (k + 1))).successCount
    ∧ (BrowserBatchHandler env faults items).results
        = (aggRunFrom env faults 0 ((superBatches env items).take k)).aggregatedResults
          ++ (aggRunFrom env faults (k + 1)
              ((superBatches env items).drop (k + 1))).aggregatedResults := by
  have hagg := aggRunFrom_split env faults items k hk
  have hstep : aggregateBatch env faults initAgg (k, (superBatches env items)[k])
      = ⟨[], [batchFailureMessage (k + 1) msg], 0, ((superBatches env items)[k]).length⟩ := by
    simp [aggregateBatch, hf, initAgg]
  have hget : ((superBatches env items)[k]?).getD [] = (superBatches env items)[k] := by
    rw [List.getElem?_eq_getElem hk]
    rfl
  refine ⟨?_, ?_, ?_, ?_⟩
  · show (aggRunFrom env faults 0 (superBatches env items)).aggregatedErrors = _
    rw [hagg, hstep]
    simp [aggAppend]
  · show (aggRunFrom env faults 0 (superBatches env items)).errorCount = _
    rw [hagg, hstep, hget]
    simp [aggAppend]
  · show (aggRunFrom env faults 0 (superBatches env items)).successCount = _
    rw [hagg, hstep]
    simp [aggAppend]
  · show (aggRunFrom env faults 0 (superBatches env items)).aggregatedResults = _
    rw [hagg, hstep]
    simp [aggAppend]

/-- Oracle for C5's witness: capacity `1 × 2`, everything succeeds, so three
items split into two super-batches. -/
def c5Env : ScrapeEnv Nat :=
  { maxBrowserSessions := 1
    maxPagesPerBrowser := 2
    launch := fun _ _ => .ok
    newPage := fun _ _ _ => Except.ok ()
    workFn := fun _ => Except.ok 1
    dataTruthy := fun _ => true }

/-- Fault oracle throwing exactly for batch number 1. -/
def c5Faults : Nat → Option String := fun n => if n = 1 then some "boom" else none

/-- Witness for C5: two super-batches, the coordinator throws for the first,
the second is still aggregated. -/
theorem C5_batch_fault_witness :
    (BrowserBatchHandler c5Env c5Faults ["a", "b", "c"]).errors
        = (aggRunFrom c5Env c5Faults 0 ((superBatches c5Env ["a", "b", "c"]).take 0)).aggregatedErrors
          ++ batchFailureMessage (0 + 1) "boom"
            :: (aggRunFrom c5Env c5Faults (0 + 1)
                ((superBatches c5Env ["a", "b", "c"]).drop (0 + 1))).aggregatedErrors
    ∧ (BrowserBatchHandler c5Env c5Faults ["a", "b", "c"]).errorCount
        = (aggRunFrom c5Env c5Faults 0 ((superBatches c5Env ["a", "b", "c"]).take 0)).errorCount
          + (((superBatches c5Env ["a", "b", "c"])[0]?).getD []).length
          + (aggRunFrom c5Env c5Faults (0 + 1)
              ((superBatches c5Env ["a", "b", "c"]).drop (0 + 1))).errorCount
    ∧ (BrowserBatchHandler c5Env c5Faults ["a", "b", "c"]).successCount
        = (aggRunFrom c5Env c5Faults 0 ((superBatches c5Env ["a", "b", "c"]).take 0)).successCount
          + (aggRunFrom c5Env c5Faults (0 + 1)
              ((superBatches c5Env ["a", "b", "c"]).drop (0 + 1))).successCount
    ∧ (BrowserBatchHandler c5Env c5Faults ["a", "b", "c"]).results
        = (aggRunFrom c5Env c5Faults 0 ((superBatches c5Env ["a", "b", "c"]).take 0)).aggregatedResults
          ++ (aggRunFrom c5Env c5Faults (0 + 1)
              ((superBatches c5Env ["a", "b", "c"]).drop (0 + 1))).aggregatedResults :=
  C5_batch_fault c5Env c5Faults ["a", "b", "c"] 0 "boom" (by decide) rfl

end BrowserBatch
